import Mathlib

/-!
Verification of the knowledge-evolution subsystem of the a2a-agent-builder
repository: a shallow embedding of `src/lib/logicalReasoning.ts`,
`src/lib/intentClassifier.ts`, the `evolveThinking` module and the
`update-memory` route, together with theorems about the specified
properties.  JavaScript strings are modelled by Lean strings, JS `Map`s and
`Set`s (which preserve insertion order) by lists, JS numbers by `ℚ` / `Nat` /
`Int` as appropriate, and each model-call site by an oracle argument giving
the (already pattern-matched) outcome of the call, `Except`/`Option` encoding
a thrown transport error.
-/

/-- JS `s.split(sep)` for a one-character separator: `"".split` gives `[""]`. -/
def jsSplit (sep : Char) (s : String) : List String :=
  (s.data.splitOn sep).map String.mk

/-- JS `list.join(sep)` for a one-character separator. -/
def jsJoin (sep : Char) (l : List String) : String :=
  String.mk (List.intercalate [sep] (l.map String.data))

/-- JS `s.includes(pat)`: substring test. -/
def jsIncludes (s pat : String) : Bool :=
  s.data.tails.any (fun t => pat.data.isPrefixOf t)

/-- JS `s.trim()`: strip leading and trailing whitespace (defined on the
character list so that it evaluates inside the kernel). -/
def jsTrim (s : String) : String :=
  String.mk
    (((s.data.dropWhile Char.isWhitespace).reverse.dropWhile
      Char.isWhitespace).reverse)

/-- JS `s.toLowerCase()` (ASCII case folding, on the character list). -/
def jsToLower (s : String) : String :=
  String.mk (s.data.map Char.toLower)

/-- JS `s.startsWith(pre)` (on the character list). -/
def jsStartsWith (s pre : String) : Bool :=
  pre.data.isPrefixOf s.data

/-- The JS number 0.5, as a literal reduced fraction. -/
def ratHalf : ℚ := ⟨1, 2, by decide, by decide⟩

deriving instance DecidableEq for Except

/-- One reasoning path of `logicalReasoning.ts` (`ReasoningPath`). -/
structure ReasoningPath where
  id : String
  propositions : List String
  confidence : ℚ
deriving DecidableEq

/-- `ReasoningContext` from `logicalReasoning.ts`. -/
structure ReasoningContext where
  sharedFacts : List String
  paths : List ReasoningPath
deriving DecidableEq

/-- State of the `ThinkingMemory` class: the `searchPaths` map (insertion
order) and the `sharedVerifiedFacts` set (insertion order, no duplicates). -/
structure ThinkingMemory where
  searchPaths : List ReasoningPath
  sharedVerifiedFacts : List String
  maxPaths : Nat
deriving DecidableEq

/-- `new ThinkingMemory(initialProposition?, maxPaths)`. -/
def ThinkingMemory.mkMem (initialProposition : Option String) (maxPaths : Nat) :
    ThinkingMemory :=
  match initialProposition with
  | some p => ⟨[⟨"path-1", [p], 1⟩], [p], maxPaths⟩
  | none => ⟨[], [], maxPaths⟩

/-- `getContext()`: snapshot of shared facts and paths. -/
def ThinkingMemory.getContext (m : ThinkingMemory) : ReasoningContext :=
  ⟨m.sharedVerifiedFacts, m.searchPaths⟩

/-- `addPropositionToPath(pathId, proposition)`. -/
def ThinkingMemory.addPropositionToPath (m : ThinkingMemory)
    (pathId proposition : String) : ThinkingMemory :=
  { m with
    searchPaths := m.searchPaths.map (fun p =>
      if p.id = pathId ∧ proposition ∉ p.propositions then
        { p with propositions := p.propositions ++ [proposition] }
      else p) }

/-- `addVerifiedFact(fact, confidence)`: insert into the shared set and
propagate to every path (the confidence argument is only logged). -/
def ThinkingMemory.addVerifiedFact (m : ThinkingMemory) (fact : String)
    (confidence : ℚ) : ThinkingMemory :=
  { m with
    sharedVerifiedFacts :=
      if fact ∈ m.sharedVerifiedFacts then m.sharedVerifiedFacts
      else m.sharedVerifiedFacts ++ [fact],
    searchPaths := m.searchPaths.map (fun p =>
      if fact ∈ p.propositions then p
      else { p with propositions := p.propositions ++ [fact] }) }

/-- The `for (const [id, path] of this.searchPaths)` scan of `createNewPath`:
starting from `lowestConfidence = Infinity, lowestPathId = ''`, record the id
of the first path with strictly smaller confidence than every earlier one. -/
def lowestPathId (paths : List ReasoningPath) : String :=
  (paths.foldl
    (fun (acc : Option ℚ × String) p =>
      match acc.1 with
      | none => (some p.confidence, p.id)
      | some c => if p.confidence < c then (some p.confidence, p.id) else acc)
    ((none : Option ℚ), "")).2

/-- JS `Map.set`: replace in place when the key exists, else append. -/
def setPath (paths : List ReasoningPath) (newPath : ReasoningPath) :
    List ReasoningPath :=
  if paths.any (fun q => q.id == newPath.id) then
    paths.map (fun q => if q.id == newPath.id then newPath else q)
  else paths ++ [newPath]

/-- `createNewPath(basePropositions)`: returns the updated memory and the
generated path id `path-(size+1)`.  At capacity the lowest-confidence path is
deleted first (no deletion when the recorded id is the falsy `''`). -/
def ThinkingMemory.createNewPath (m : ThinkingMemory)
    (basePropositions : List String) : ThinkingMemory × String :=
  let pathId := "path-" ++ toString (m.searchPaths.length + 1)
  let afterEvict :=
    if m.maxPaths ≤ m.searchPaths.length then
      let lowest := lowestPathId m.searchPaths
      if lowest ≠ "" then m.searchPaths.eraseP (fun p => p.id == lowest)
      else m.searchPaths
    else m.searchPaths
  ({ m with searchPaths := setPath afterEvict ⟨pathId, basePropositions, ratHalf⟩ },
   pathId)

/-- `exportFacts()`: newline-joined shared facts. -/
def ThinkingMemory.exportFacts (m : ThinkingMemory) : String :=
  jsJoin '\n' m.sharedVerifiedFacts

/-- `ThinkingMemory.fromFacts(factsString)`: starts from `new
ThinkingMemory()` (no seed path), splits on newlines, keeps non-blank lines
and admits each via `addVerifiedFact`. -/
def ThinkingMemory.fromFacts (factsString : String) : ThinkingMemory :=
  let memory := ThinkingMemory.mkMem none 3
  if factsString ≠ "" ∧ factsString ≠ "(empty)" then
    let facts := (jsSplit '\n' factsString).filter (fun f => jsTrim f != "")
    facts.foldl (fun mem fact => mem.addVerifiedFact fact 1) memory
  else memory

/-- The public mutating operations of `ThinkingMemory`. -/
inductive MemOp where
  | addFact (fact : String) (confidence : ℚ)
  | addToPath (pathId proposition : String)
  | newPath (basePropositions : List String)
deriving DecidableEq

def applyOp (m : ThinkingMemory) : MemOp → ThinkingMemory
  | .addFact f c => m.addVerifiedFact f c
  | .addToPath pid p => m.addPropositionToPath pid p
  | .newPath base => (m.createNewPath base).1

def applyOps (m : ThinkingMemory) (ops : List MemOp) : ThinkingMemory :=
  ops.foldl applyOp m

/-- Verdict tokens of the `LogicalVerifier` response format. -/
inductive Verdict where
  | VALID
  | INVALID
  | UNCERTAIN
deriving DecidableEq

/-- Result shape of `LogicalVerifier.verify`. -/
structure VerificationResult where
  valid : Bool
  confidence : ℚ
  reason : String
deriving DecidableEq

/-- Outcome of the three regex matches `verify` runs on the model response:
the captured verdict, confidence and reason groups (each `none` on a missed
match). -/
structure VerifierParse where
  verdictMatch : Option Verdict
  confidenceMatch : Option ℚ
  reasonMatch : Option String
deriving DecidableEq

/-- `LogicalVerifier.verify`, given the outcome of the model call
(`Except.error` = the call threw).  Missed matches default to
UNCERTAIN / 0.5 / "Unable to determine"; admission requires a VALID verdict
with confidence at least 0.7. -/
def LogicalVerifier.verify (call : Except Unit VerifierParse) :
    VerificationResult :=
  match call with
  | .error _ => ⟨false, 0, "Verification failed"⟩
  | .ok m =>
    let verdict := m.verdictMatch.getD .UNCERTAIN
    let confidence := m.confidenceMatch.getD (1/2)
    let reason := (m.reasonMatch.map jsTrim).getD "Unable to determine"
    ⟨(verdict == Verdict.VALID) && decide ((7 : ℚ)/10 ≤ confidence),
     confidence, reason⟩

/-- Behaviour of the model-backed Generator/Verifier pair for one engine run
(each component already catches its own transport errors, so every field is a
total function): `generateInitialProposition` and `generateNextPropositions`
of `ReasoningPrompt`, and `verify` of `LogicalVerifier`. -/
structure EngineOracle where
  generateInitialProposition : String → String → String
  generateNextPropositions : ReasoningContext → String → Option String → List String
  verify : ReasoningContext → String → VerificationResult

/-- Return value of `LogicalReasoningEngine.runCycle`. -/
structure CycleResult where
  factsAdded : Nat
  totalFacts : Nat
deriving DecidableEq

/-- `LogicalReasoningEngine.runCycle`: snapshot the context, admit an initial
proposition on a cold start with conversation context, generate candidates
from the snapshot, verify each against the same pre-cycle snapshot and admit
the valid ones. -/
def runCycle (O : EngineOracle) (intent : String)
    (conversationContext : Option String) (m : ThinkingMemory) :
    ThinkingMemory × CycleResult :=
  let context := m.getContext
  let m1 :=
    match context.sharedFacts, conversationContext with
    | [], some cc => m.addVerifiedFact (O.generateInitialProposition intent cc) 1
    | _, _ => m
  let candidates := O.generateNextPropositions context intent conversationContext
  if candidates = [] then (m1, ⟨0, context.sharedFacts.length⟩)
  else
    let step := candidates.foldl
      (fun (acc : ThinkingMemory × Nat) c =>
        let v := O.verify context c
        if v.valid then (acc.1.addVerifiedFact c v.confidence, acc.2 + 1)
        else acc)
      (m1, 0)
    (step.1, ⟨step.2, step.1.getContext.sharedFacts.length⟩)

/-- The cycle loop of `LogicalReasoningEngine.evolve`, instrumented with the
list of `factsAdded` values of the executed cycles: run up to the given
number of cycles, breaking after the first cycle whose `factsAdded` is 0. -/
def evolveTrace (O : EngineOracle) (intent : String)
    (conversationContext : Option String) :
    ThinkingMemory → Nat → ThinkingMemory × List Nat
  | m, 0 => (m, [])
  | m, n + 1 =>
    let step := runCycle O intent conversationContext m
    if step.2.factsAdded = 0 then (step.1, [step.2.factsAdded])
    else
      let rest := evolveTrace O intent conversationContext step.1 n
      (rest.1, step.2.factsAdded :: rest.2)

/-- `LogicalReasoningEngine.evolve`: run the cycle loop and export the facts. -/
def evolve (O : EngineOracle) (intent : String) (cycles : Nat)
    (conversationContext : Option String) (m : ThinkingMemory) : String :=
  ((evolveTrace O intent conversationContext m cycles).1).exportFacts

/-- The `LogicalReasoningEngine` constructor's memory initialisation:
`initialKnowledge ? ThinkingMemory.fromFacts(initialKnowledge) : new
ThinkingMemory()` (an absent or empty string is falsy). -/
def engineInitMemory (initialKnowledge : Option String) : ThinkingMemory :=
  match initialKnowledge with
  | some k => if k ≠ "" then ThinkingMemory.fromFacts k else ThinkingMemory.mkMem none 3
  | none => ThinkingMemory.mkMem none 3

/-- The part of an agent record relevant to thinking evolution. -/
structure Agent where
  thinkingMemories : List (String × String)
  caringMemories : List (String × String)
  description : String
deriving DecidableEq

/-- JS object-property lookup in a string-valued record. -/
def lookupAssoc (l : List (String × String)) (k : String) : Option String :=
  (l.find? (fun kv => kv.1 == k)).map Prod.snd

/-- JS object-property assignment in a string-valued record. -/
def setAssoc (l : List (String × String)) (k v : String) :
    List (String × String) :=
  if l.any (fun kv => kv.1 == k) then
    l.map (fun kv => if kv.1 == k then (k, v) else kv)
  else l ++ [(k, v)]

/-- Result shape of `evolveThinking`. -/
structure EvolveThinkingResult where
  success : Bool
  previousThinking : String
  newThinking : String
  factsAdded : Int
deriving DecidableEq

/-- `evolveThinking(config)` of the thinking-evolution module, given the
looked-up agent (`none` = not found, which throws into the catch branch) and
the engine oracle; the second component lists the agent records written via
`setAgent`.  On the success path the updated thinking map is written back
unconditionally. -/
def evolveThinking (O : EngineOracle) (agentOpt : Option Agent)
    (intent : String) (conversationContext : Option String) (cycles : Nat) :
    EvolveThinkingResult × List Agent :=
  match agentOpt with
  | none => (⟨false, "", "", 0⟩, [])
  | some agent =>
    let previousThinking :=
      match lookupAssoc agent.thinkingMemories intent with
      | some v => if v = "" then "(empty)" else v
      | none => "(empty)"
    let m0 := engineInitMemory
      (if previousThinking ≠ "(empty)" then some previousThinking else none)
    let final := evolveTrace O intent conversationContext m0 cycles
    let newThinking := final.1.exportFacts
    let factsAdded : Int :=
      (final.1.getContext.sharedFacts.length : Int) -
        (if previousThinking ≠ "(empty)" then
          ((jsSplit '\n' previousThinking).length : Int)
        else 0)
    let agentAfter :=
      { agent with
        thinkingMemories := setAssoc agent.thinkingMemories intent newThinking }
    (⟨true, previousThinking, newThinking, factsAdded⟩, [agentAfter])

/-- `matchIntentFromPatterns` of `intentClassifier.ts`: take the most recent
line starting with `user:`, lower-case it, and return the first intent (in
table order) one of whose keywords occurs in it. -/
def matchIntentFromPatterns (intentPatterns : List (String × List String))
    (conversationText : String) : Option String :=
  let lines := jsSplit '\n' (jsTrim conversationText)
  match lines.reverse.find? (fun line => jsStartsWith line "user:") with
  | none => none
  | some lastUserMessage =>
    let lastMessageText := jsToLower lastUserMessage
    intentPatterns.findSome? (fun ik =>
      if ik.2.any (fun keyword => jsIncludes lastMessageText (jsToLower keyword)) then
        some ik.1
      else none)

/-- Outcome of the two regex matches `classifyIntent` runs on the model
response: the captured `INTENT:` and `KEYWORDS:` groups. -/
structure ClassifierParse where
  intentMatch : Option String
  keywordsMatch : Option String
deriving DecidableEq

/-- JS `replace(/\s+/g, '_')`: each maximal whitespace run becomes one `_`. -/
def squashWhitespace : List Char → Bool → List Char
  | [], _ => []
  | c :: cs, inRun =>
    if c.isWhitespace then
      if inRun then squashWhitespace cs true
      else '_' :: squashWhitespace cs true
    else c :: squashWhitespace cs false

/-- `intentMatch[1].trim().toLowerCase().replace(/\s+/g, '_')`. -/
def normalizeIntent (s : String) : String :=
  String.mk (squashWhitespace (jsToLower (jsTrim s)).data false)

/-- `classifyIntent(agentId, conversationText, previousIntent?)`, given the
agent's pattern table and the outcome of the model call (`Except.error` = the
call threw; the pattern-table write of `saveIntentPattern` is not modelled).
There is no catch around the model call, so a thrown error propagates. -/
def classifyIntent (intentPatterns : List (String × List String))
    (conversationText : String) (previousIntent : Option String)
    (llm : Except String ClassifierParse) : Except String String :=
  match matchIntentFromPatterns intentPatterns conversationText with
  | some matchedIntent => .ok matchedIntent
  | none =>
    match llm with
    | .error e => .error e
    | .ok response =>
      match response.intentMatch with
      | none => .ok "general"
      | some captured => .ok (normalizeIntent captured)

/-- Request body of the update-memory route (`none` fields are absent). -/
structure UpdateMemoryBody where
  contextId : Option String
  conversationHistory : Option (List String)
  intent : Option String
  username : Option String
deriving DecidableEq

/-- JS falsiness of an optional string (`undefined` or `""`). -/
def jsFalsyOptStr : Option String → Bool
  | none => true
  | some s => s == ""

/-- Everything the route does after body validation, summarised: the
response body, the number of storage writes and the number of model calls it
performs. -/
structure DownstreamOutcome where
  response : String
  storageWrites : Nat
  modelCalls : Nat
deriving DecidableEq

/-- Responses of the update-memory route relevant to the gate and
validation. -/
inductive RouteResponse where
  | ok (body : String)
  | skipped (waitTime : Nat)
  | badRequest (message : String)
  | serverError
deriving DecidableEq

/-- Observable outcome of one `POST` invocation.  The `lastUpdateTime`
dictionary (`Record<string, number>`) is modelled as a partial function from
agent ids to timestamps. -/
structure PostOutcome where
  response : RouteResponse
  lastUpdateTime : String → Option Nat
  storageWrites : Nat
  modelCalls : Nat

/-- JS property assignment `record[k] = v` on the timestamp dictionary. -/
def setTime (st : String → Option Nat) (k : String) (v : Nat) :
    String → Option Nat :=
  fun a => if a = k then some v else st a

def MIN_UPDATE_INTERVAL_MS : Nat := 60000

/-- The update-memory `POST` after the rate-limit gate: record the
last-update timestamp, then validate the body (400 on a falsy `contextId` or
absent `conversationHistory`), then run the rest of the handler. -/
def afterGatePOST (downstream : UpdateMemoryBody → DownstreamOutcome)
    (agentId : String) (b : UpdateMemoryBody) (now : Nat)
    (st : String → Option Nat) : PostOutcome :=
  let st1 := setTime st agentId now
  if jsFalsyOptStr b.contextId || b.conversationHistory.isNone then
    ⟨.badRequest "Missing contextId or conversationHistory", st1, 0, 0⟩
  else
    let d := downstream b
    ⟨.ok d.response, st1, d.storageWrites, d.modelCalls⟩

/-- The update-memory `POST` handler: parse the body (`none` = the JSON parse
threw, answered 500 by the catch), check the per-agent rate-limit gate (a
recorded nonzero timestamp less than 60000 ms old answers a skip without
touching state, storage or models), then continue with `afterGatePOST`. -/
def updateMemoryPOST (downstream : UpdateMemoryBody → DownstreamOutcome)
    (agentId : String) (body : Option UpdateMemoryBody) (now : Nat)
    (st : String → Option Nat) : PostOutcome :=
  match body with
  | none => ⟨.serverError, st, 0, 0⟩
  | some b =>
    match st agentId with
    | some t =>
      if t ≠ 0 ∧ now - t < MIN_UPDATE_INTERVAL_MS then
        ⟨.skipped ((MIN_UPDATE_INTERVAL_MS - (now - t) + 999) / 1000), st, 0, 0⟩
      else afterGatePOST downstream agentId b now st
    | none => afterGatePOST downstream agentId b now st

/-- The gate lets a call through: no recorded timestamp, a zero (falsy)
timestamp, or an interval of at least 60000 ms. -/
def gateOpen (st : String → Option Nat) (agentId : String) (now : Nat) : Bool :=
  match st agentId with
  | none => true
  | some t => t == 0 || decide (MIN_UPDATE_INTERVAL_MS ≤ now - t)

/-! Concrete fixtures used to instantiate the theorems below. -/

/-- A generator/verifier pair that always proposes the single candidate "A"
and accepts every candidate with confidence 1. -/
def oracleDup : EngineOracle :=
  ⟨fun intent _ => "Core concept: " ++ intent,
   fun _ _ _ => ["A"],
   fun _ _ => ⟨true, 1, "ok"⟩⟩

/-- A generator/verifier pair that proposes "0" while the fact set is empty
and nothing afterwards, accepting every candidate. -/
def oracleOnce : EngineOracle :=
  ⟨fun intent _ => "Core concept: " ++ intent,
   fun context _ _ => if context.sharedFacts = [] then ["0"] else [],
   fun _ _ => ⟨true, 1, "ok"⟩⟩

/-- A generator/verifier pair that never proposes a candidate. -/
def oracleSilent : EngineOracle :=
  ⟨fun intent _ => "Core concept: " ++ intent,
   fun _ _ _ => [],
   fun _ _ => ⟨false, 0, "no"⟩⟩

/-- A memory already holding the single fact "A" and no path. -/
def memA : ThinkingMemory := (ThinkingMemory.mkMem none 3).addVerifiedFact "A" 1

/-- A memory seeded through the constructor with the proposition "A". -/
def memSeed : ThinkingMemory := ThinkingMemory.mkMem (some "A") 3

/-- `memSeed` after three `createNewPath([])` calls: the third call evicts
`path-2`, leaving the ids `path-1`, `path-3`, `path-4`. -/
def memThree : ThinkingMemory :=
  ((((memSeed.createNewPath []).1.createNewPath []).1).createNewPath []).1

/-- `memThree` after admitting the fact "F". -/
def memAdmit : ThinkingMemory := memThree.addVerifiedFact "F" 1

/-- `memAdmit` after one more `createNewPath([])`: `path-3` is evicted and
the generated id `path-4` collides with the surviving path, which is
overwritten in place. -/
def memAfter : ThinkingMemory := (memAdmit.createNewPath []).1

/-- A memory whose only shared fact is the literal sentinel text. -/
def memSentinel : ThinkingMemory :=
  (ThinkingMemory.mkMem none 3).addVerifiedFact "(empty)" 1

/-- A memory holding the two facts "A" and "B". -/
def memAB : ThinkingMemory :=
  ((ThinkingMemory.mkMem none 3).addVerifiedFact "A" 1).addVerifiedFact "B" 1

/-- An agent whose thinking memory for intent "t" is the single fact "A". -/
def agentT : Agent := ⟨[("t", "A")], [], "desc"⟩

/-- A downstream continuation performing five storage writes and seven model
calls, to make the zero counts of the gated paths observable. -/
def downBusy : UpdateMemoryBody → DownstreamOutcome :=
  fun _ => ⟨"done", 5, 7⟩

/-- A well-formed request body. -/
def bodyGood : UpdateMemoryBody := ⟨some "ctx-1", some ["hello"], none, none⟩

/-- A request body with a missing `contextId`. -/
def bodyNoCtx : UpdateMemoryBody := ⟨none, some ["hello"], none, none⟩

/-- C1: `LogicalVerifier.verify` returns `valid = true` exactly when the
parsed verdict is VALID and the parsed confidence is at least 0.7; a VALID
verdict with confidence 0.69 yields `valid = false`, one with confidence
0.70 yields `valid = true`, an UNCERTAIN verdict yields `valid = false` at
every confidence, and a failed model call yields
`{valid := false, confidence := 0}`. -/
theorem C1_verifier_admission (c : Except Unit VerifierParse) :
    ((LogicalVerifier.verify c).valid = true ↔
      ∃ p, c = .ok p ∧ p.verdictMatch.getD .UNCERTAIN = .VALID ∧
        (7 : ℚ)/10 ≤ p.confidenceMatch.getD (1/2)) ∧
    (∀ r, (LogicalVerifier.verify (.ok ⟨some .VALID, some (69/100), r⟩)).valid
      = false) ∧
    (∀ r, (LogicalVerifier.verify (.ok ⟨some .VALID, some (7/10), r⟩)).valid
      = true) ∧
    (∀ q r, (LogicalVerifier.verify (.ok ⟨some .UNCERTAIN, some q, r⟩)).valid
      = false) ∧
    LogicalVerifier.verify (.error ()) = ⟨false, 0, "Verification failed"⟩ := by
  refine ⟨?_, fun r => by norm_num [LogicalVerifier.verify],
    fun r => by norm_num [LogicalVerifier.verify],
    fun q r => by simp [LogicalVerifier.verify], rfl⟩
  cases c with
  | error e => simp [LogicalVerifier.verify]
  | ok p =>
    simp [LogicalVerifier.verify, Bool.and_eq_true, decide_eq_true_eq,
      beq_iff_eq]

/-- The cycle loop executes at most the requested number of cycles. -/
theorem evolveTrace_length_le (O : EngineOracle) (intent : String)
    (ctx : Option String) :
    ∀ (n : Nat) (m : ThinkingMemory),
      (evolveTrace O intent ctx m n).2.length ≤ n := by
  intro n
  induction n with
  | zero => intro m; simp [evolveTrace]
  | succ k ih =>
    intro m
    simp only [evolveTrace]
    split
    · simp
    · simpa using Nat.succ_le_succ (ih _)

/-- If the head of a list is nonzero and all non-final elements of the tail
are nonzero, then all non-final elements of the whole list are nonzero. -/
theorem dropLastForallCons {a : Nat} {l : List Nat} (ha : ¬ a = 0)
    (hl : ∀ x ∈ l.dropLast, x ≠ 0) : ∀ x ∈ (a :: l).dropLast, x ≠ 0 := by
  cases l with
  | nil => intro x hx; simp at hx
  | cons b t =>
    intro x hx
    rw [List.dropLast_cons₂] at hx
    rcases List.mem_cons.mp hx with rfl | hx2
    · exact ha
    · exact hl x hx2

/-- Every executed cycle other than the last one added a positive
`factsAdded` count. -/
theorem evolveTrace_dropLast_ne_zero (O : EngineOracle) (intent : String)
    (ctx : Option String) :
    ∀ (n : Nat) (m : ThinkingMemory),
      ∀ x ∈ (evolveTrace O intent ctx m n).2.dropLast, x ≠ 0 := by
  intro n
  induction n with
  | zero => intro m; simp [evolveTrace]
  | succ k ih =>
    intro m
    simp only [evolveTrace]
    split
    · simp
    · rename_i hne
      exact dropLastForallCons hne (ih _)

/-- If the trace has a second executed cycle with a zero count, the loop
stopped there. -/
theorem evolveTrace_second_zero_stops (O : EngineOracle) (intent : String)
    (ctx : Option String) (n : Nat) (m : ThinkingMemory) :
    ∀ a rest, (evolveTrace O intent ctx m n).2 = a :: 0 :: rest → rest = [] := by
  intro a rest h
  cases rest with
  | nil => rfl
  | cons r0 rt =>
    have h0 : (0 : Nat) ∈ (evolveTrace O intent ctx m n).2.dropLast := by
      rw [h]; simp [List.dropLast]
    exact absurd rfl (evolveTrace_dropLast_ne_zero O intent ctx n m 0 h0)

/-- C2 amended: `evolve` runs at most `n` cycles and stops iterating
immediately after the first cycle whose count of verifier-admitted
candidates (`factsAdded`) is zero — in particular a 3-cycle run whose second
executed cycle reports zero performs at most 2 rounds.  However, a cycle
whose admitted candidates are all already-present facts reports a positive
count without growing the fact set, so "admits zero new facts" must be read
as this reported count, not as set growth (see the counterexample). -/
theorem C2_early_stop (O : EngineOracle) (intent : String)
    (ctx : Option String) (m : ThinkingMemory) (n : Nat) :
    (evolveTrace O intent ctx m n).2.length ≤ n ∧
    (∀ x ∈ (evolveTrace O intent ctx m n).2.dropLast, x ≠ 0) ∧
    (∀ a rest, (evolveTrace O intent ctx m 3).2 = a :: 0 :: rest →
      rest = []) :=
  ⟨evolveTrace_length_le O intent ctx n m,
   evolveTrace_dropLast_ne_zero O intent ctx n m,
   evolveTrace_second_zero_stops O intent ctx 3 m⟩

/-- C2 witness: the amended theorem instantiated at `oracleOnce`, whose
3-cycle run has the trace `[1, 0]`. -/
theorem C2_witness :
    (evolveTrace oracleOnce "i" none (ThinkingMemory.mkMem none 3) 3).2.length
      ≤ 3 ∧ ([] : List Nat) = [] :=
  ⟨(C2_early_stop oracleOnce "i" none (ThinkingMemory.mkMem none 3) 3).1,
   (C2_early_stop oracleOnce "i" none (ThinkingMemory.mkMem none 3) 3).2.2
     1 [] (by decide)⟩

/-- C2 counterexample: with the generator/verifier pair `oracleDup`, every
cycle of a 3-cycle `evolve` run admits zero new facts (the shared fact set
stays `["A"]` throughout), yet the engine performs all three
generate-and-verify rounds instead of stopping after the first one. -/
theorem C2_counterexample :
    (evolveTrace oracleDup "i" none memA 3).2.length = 3 ∧
    (evolveTrace oracleDup "i" none memA 3).1.sharedVerifiedFacts =
      memA.sharedVerifiedFacts := by decide

/-- C3: evaluation of the code at the failing input.  At admission time the
fact "F" is propagated to every path, including the one with id `path-4`;
after one further `createNewPath([])` call the memory still contains a path
with id `path-4` (the generated id collided and the path was overwritten in
place), but that path no longer contains "F". -/
theorem C3_code_bug_eval :
    (∀ p ∈ memAdmit.searchPaths, "F" ∈ p.propositions) ∧
    (∃ p ∈ memAdmit.searchPaths, p.id = "path-4") ∧
    (∃ p ∈ memAfter.searchPaths, p.id = "path-4" ∧ "F" ∉ p.propositions) := by
  decide

/-- C5: evaluation of the code at the failing input.  `memThree` holds
exactly `maxPaths = 3` paths (ids `path-1`, `path-3`, `path-4`), yet
`createNewPath` leaves only 2 paths: it evicts the lowest-confidence path
`path-3` and then overwrites the surviving `path-4`, because the generated
id `path-(size+1) = path-4` collides with it. -/
theorem C5_code_bug_eval :
    memThree.searchPaths.length = memThree.maxPaths ∧
    (memThree.createNewPath []).1.searchPaths.length = 2 := by decide

/-- C4 counterexample: the memory whose only fact is the literal text
"(empty)" has unique, non-blank, newline-free facts, yet re-importing its
export does not round-trip — the import treats the exported text as the
empty sentinel and produces an empty memory. -/
theorem C4_counterexample :
    memSentinel.sharedVerifiedFacts.Nodup ∧
    (∀ f ∈ memSentinel.sharedVerifiedFacts, jsTrim f ≠ "" ∧ '\n' ∉ f.data) ∧
    (ThinkingMemory.fromFacts memSentinel.exportFacts).exportFacts ≠
      memSentinel.exportFacts := by decide

/-- Rebuilding a string from its character list is the identity. -/
theorem stringMkData (s : String) : String.mk s.data = s := rfl

/-- Folding `addVerifiedFact` over fresh, pairwise-distinct facts on a
path-free memory appends exactly those facts to the shared set and creates
no path. -/
theorem addFacts_spec :
    ∀ (l : List String) (m : ThinkingMemory), m.searchPaths = [] →
      (∀ f ∈ l, f ∉ m.sharedVerifiedFacts) → l.Nodup →
      (l.foldl (fun mem fact => mem.addVerifiedFact fact 1) m).sharedVerifiedFacts
        = m.sharedVerifiedFacts ++ l ∧
      (l.foldl (fun mem fact => mem.addVerifiedFact fact 1) m).searchPaths
        = [] := by
  intro l
  induction l with
  | nil => intro m h1 _ _; simp [h1]
  | cons f t ih =>
    intro m h1 h2 h3
    simp only [List.foldl_cons]
    have hf : f ∉ m.sharedVerifiedFacts := h2 f (by simp)
    have hstep : (m.addVerifiedFact f 1).sharedVerifiedFacts =
        m.sharedVerifiedFacts ++ [f] := by
      simp [ThinkingMemory.addVerifiedFact, hf]
    have hpaths : (m.addVerifiedFact f 1).searchPaths = [] := by
      simp [ThinkingMemory.addVerifiedFact, h1]
    have hfresh : ∀ g ∈ t, g ∉ (m.addVerifiedFact f 1).sharedVerifiedFacts := by
      intro g hg
      rw [hstep]
      simp only [List.mem_append, List.mem_singleton]
      rintro (hgm | rfl)
      · exact h2 g (by simp [hg]) hgm
      · exact (List.nodup_cons.mp h3).1 hg
    obtain ⟨ht1, ht2⟩ := ih (m.addVerifiedFact f 1) hpaths hfresh
      (List.Nodup.of_cons h3)
    refine ⟨?_, ht2⟩
    rw [ht1, hstep]
    simp

/-- Splitting the newline-join of newline-free strings recovers them. -/
theorem jsSplit_jsJoin (facts : List String) (hne : facts ≠ [])
    (hnl : ∀ f ∈ facts, '\n' ∉ f.data) :
    jsSplit '\n' (jsJoin '\n' facts) = facts := by
  unfold jsSplit jsJoin
  rw [show (String.mk (List.intercalate ['\n'] (facts.map String.data))).data
      = List.intercalate ['\n'] (facts.map String.data) from rfl]
  rw [List.splitOn_intercalate (facts.map String.data) '\n'
    (by intro l hl; obtain ⟨f, hf, rfl⟩ := List.mem_map.mp hl; exact hnl f hf)
    (by simpa using hne)]
  rw [List.map_map]
  rw [show String.mk ∘ String.data = id from funext stringMkData, List.map_id]

/-- The character list of a newline-join starts with the characters of the
first joined string. -/
theorem jsJoin_data_cons (sep : Char) (f0 : String) (rest : List String) :
    ∃ t, (jsJoin sep (f0 :: rest)).data = f0.data ++ t := by
  cases rest with
  | nil =>
    exact ⟨[], by
      simp [jsJoin, List.intercalate, List.intersperse_singleton]⟩
  | cons f1 t =>
    refine ⟨[sep] ++ List.intercalate [sep] ((f1 :: t).map String.data), ?_⟩
    simp [jsJoin, List.intercalate, List.intersperse_cons_cons]

/-- A memory with a non-blank fact has a non-empty export. -/
theorem exportFacts_ne_empty (m : ThinkingMemory) (f0 : String)
    (rest : List String) (hfacts : m.sharedVerifiedFacts = f0 :: rest)
    (hblank : jsTrim f0 ≠ "") : m.exportFacts ≠ "" := by
  obtain ⟨t, ht⟩ := jsJoin_data_cons '\n' f0 rest
  intro h
  have hdata : (m.exportFacts).data = [] := by rw [h]
  rw [ThinkingMemory.exportFacts, hfacts, ht] at hdata
  obtain ⟨hf0, -⟩ := List.append_eq_nil.mp hdata
  apply hblank
  rw [show f0 = String.mk f0.data from rfl, hf0]
  rfl

/-- C4 amended: re-importing the exported text of a memory whose shared
facts are unique, non-blank, newline-free strings round-trips, provided in
addition that the exported text is not the literal sentinel "(empty)" (a
memory whose single fact is the text "(empty)" does not round-trip, see the
counterexample). -/
theorem C4_roundtrip (m : ThinkingMemory)
    (hnodup : m.sharedVerifiedFacts.Nodup)
    (hblank : ∀ f ∈ m.sharedVerifiedFacts, jsTrim f ≠ "")
    (hnl : ∀ f ∈ m.sharedVerifiedFacts, '\n' ∉ f.data)
    (hsent : m.exportFacts ≠ "(empty)") :
    (ThinkingMemory.fromFacts m.exportFacts).exportFacts = m.exportFacts := by
  rcases hfacts : m.sharedVerifiedFacts with - | ⟨f0, rest⟩
  · have hexp : m.exportFacts = "" := by
      rw [ThinkingMemory.exportFacts, hfacts]; rfl
    rw [hexp]; rfl
  · have hne : m.sharedVerifiedFacts ≠ [] := by rw [hfacts]; simp
    have hexp_ne : m.exportFacts ≠ "" :=
      exportFacts_ne_empty m f0 rest hfacts
        (hblank f0 (by rw [hfacts]; simp))
    have hsplit : jsSplit '\n' (ThinkingMemory.exportFacts m) =
        m.sharedVerifiedFacts :=
      jsSplit_jsJoin m.sharedVerifiedFacts hne hnl
    have hfilter : (jsSplit '\n' (ThinkingMemory.exportFacts m)).filter
        (fun f => jsTrim f != "") = m.sharedVerifiedFacts := by
      rw [hsplit]
      refine List.filter_eq_self.mpr ?_
      intro f hf
      simpa using hblank f hf
    simp only [ThinkingMemory.fromFacts]
    rw [if_pos ⟨hexp_ne, hsent⟩, hfilter]
    obtain ⟨h1, -⟩ := addFacts_spec m.sharedVerifiedFacts
      (ThinkingMemory.mkMem none 3) rfl
      (by intro f hf; simp [ThinkingMemory.mkMem]) hnodup
    rw [ThinkingMemory.exportFacts, h1]
    rfl

/-- C4 witness: the amended round-trip theorem instantiated at the concrete
memory holding the facts "A" and "B". -/
theorem C4_witness :
    (ThinkingMemory.fromFacts memAB.exportFacts).exportFacts =
      memAB.exportFacts :=
  C4_roundtrip memAB (by decide) (by decide) (by decide) (by decide)

/-- C6 amended: initializing from non-empty, non-sentinel seed text admits
each non-blank line as a shared fact in order, but the resulting memory has
no reasoning path at all: `fromFacts` uses the seedless constructor, and
`addVerifiedFact` creates no path, so no seed carries a confidence-1.0
path. -/
theorem C6_seed_no_path (s : String) (h1 : s ≠ "") (h2 : s ≠ "(empty)")
    (h3 : ((jsSplit '\n' s).filter (fun f => jsTrim f != "")).Nodup) :
    (ThinkingMemory.fromFacts s).sharedVerifiedFacts =
      (jsSplit '\n' s).filter (fun f => jsTrim f != "") ∧
    (ThinkingMemory.fromFacts s).searchPaths = [] := by
  simp only [ThinkingMemory.fromFacts]
  rw [if_pos ⟨h1, h2⟩]
  obtain ⟨ha, hb⟩ := addFacts_spec
    ((jsSplit '\n' s).filter (fun f => jsTrim f != ""))
    (ThinkingMemory.mkMem none 3) rfl
    (by intro f hf; simp [ThinkingMemory.mkMem]) h3
  exact ⟨by rw [ha]; rfl, hb⟩

/-- C6 witness: the amended theorem instantiated at the seed text
consisting of the two lines "A" and "B". -/
theorem C6_witness :
    (ThinkingMemory.fromFacts "A\nB").sharedVerifiedFacts =
      (jsSplit '\n' "A\nB").filter (fun f => jsTrim f != "") ∧
    (ThinkingMemory.fromFacts "A\nB").searchPaths = [] :=
  C6_seed_no_path "A\nB" (by decide) (by decide) (by decide)

/-- C6 counterexample: initializing from the non-empty, non-sentinel seed
text "A" does not produce a memory with exactly one reasoning path —
`fromFacts` uses the seedless constructor and creates no path at all. -/
theorem C6_counterexample :
    (ThinkingMemory.fromFacts "A").searchPaths.length ≠ 1 := by decide

/-- C7 counterexample: an `evolveThinking` invocation whose evolution admits
zero new facts (the silent oracle generates no candidates, and the reported
`factsAdded` is 0) still writes the agent record to storage. -/
theorem C7_counterexample :
    (evolveThinking oracleSilent (some agentT) "t" none 1).1.factsAdded = 0 ∧
    (evolveThinking oracleSilent (some agentT) "t" none 1).2 ≠ [] := by decide

/-- C7 amended: a successful `evolveThinking` call always performs exactly
one agent-record write, regardless of how many facts the evolution admitted
(in particular a zero-new-facts call still writes); only when the agent is
not found does the call write nothing. -/
theorem C7_amended (O : EngineOracle) (agentOpt : Option Agent)
    (intent : String) (conversationContext : Option String) (cycles : Nat) :
    (evolveThinking O agentOpt intent conversationContext cycles).2.length =
      (if agentOpt.isSome then 1 else 0) := by
  cases agentOpt <;> rfl

/-- C8 counterexample: when no stored pattern matches and the model call
throws, `classifyIntent` does not return the fallback label "general" — the
error propagates to the caller. -/
theorem C8_counterexample :
    classifyIntent [] "hi" none (Except.error "network") ≠
      Except.ok "general" := by decide

/-- C8 amended: when no stored pattern matches, a parse miss on the INTENT
line yields the fallback label "general", but a thrown model call propagates
to the caller unchanged — `classifyIntent` has no catch around the model
call. -/
theorem C8_amended (intentPatterns : List (String × List String))
    (conversationText : String) (previousIntent : Option String)
    (h : matchIntentFromPatterns intentPatterns conversationText = none) :
    (∀ e, classifyIntent intentPatterns conversationText previousIntent
      (.error e) = .error e) ∧
    (∀ p, p.intentMatch = none →
      classifyIntent intentPatterns conversationText previousIntent
        (.ok p) = .ok "general") := by
  refine ⟨fun e => ?_, fun p hp => ?_⟩
  · simp [classifyIntent, h]
  · simp [classifyIntent, h, hp]

/-- C8 witness: instantiation of the amended theorem at a concrete empty
pattern table and conversation text. -/
theorem C8_witness :
    classifyIntent [] "hi" none (Except.error "x") = Except.error "x" ∧
    classifyIntent [] "hi" none (Except.ok ⟨none, none⟩) =
      Except.ok "general" :=
  ⟨(C8_amended [] "hi" none (by decide)).1 "x",
   (C8_amended [] "hi" none (by decide)).2 ⟨none, none⟩ rfl⟩

/-- Both validation branches after the gate record the timestamp. -/
theorem afterGate_state (down : UpdateMemoryBody → DownstreamOutcome)
    (agentId : String) (b : UpdateMemoryBody) (now : Nat)
    (st : String → Option Nat) :
    (afterGatePOST down agentId b now st).lastUpdateTime =
      setTime st agentId now := by
  unfold afterGatePOST
  split <;> rfl

/-- A call that passes the gate continues with the post-gate handler. -/
theorem post_gate_open (down : UpdateMemoryBody → DownstreamOutcome)
    (agentId : String) (b : UpdateMemoryBody) (now : Nat)
    (st : String → Option Nat) (hopen : gateOpen st agentId now = true) :
    updateMemoryPOST down agentId (some b) now st =
      afterGatePOST down agentId b now st := by
  unfold gateOpen at hopen
  unfold updateMemoryPOST
  cases hst : st agentId with
  | none => simp only [hst]
  | some t =>
    simp only [hst] at hopen
    simp only [hst]
    rw [if_neg]
    simp only [Bool.or_eq_true, beq_iff_eq, decide_eq_true_eq] at hopen
    rintro ⟨h1, h2⟩
    rcases hopen with h0 | hge
    · exact h1 h0
    · omega

/-- A call with a recorded nonzero timestamp less than the interval old is
answered with a skip and touches nothing. -/
theorem post_gate_closed (down : UpdateMemoryBody → DownstreamOutcome)
    (agentId : String) (b : UpdateMemoryBody) (now : Nat)
    (st : String → Option Nat) (t : Nat) (hst : st agentId = some t)
    (ht : t ≠ 0) (hlt : now - t < MIN_UPDATE_INTERVAL_MS) :
    updateMemoryPOST down agentId (some b) now st =
      ⟨.skipped ((MIN_UPDATE_INTERVAL_MS - (now - t) + 999) / 1000),
       st, 0, 0⟩ := by
  unfold updateMemoryPOST
  simp only [hst]
  rw [if_pos ⟨ht, hlt⟩]

/-- C9: if a first updateMemory call for an agent passes the gate at a
nonzero time `t0` and a second call for the same agent arrives at `t1`
within 60000 ms, the second call returns a successful skip report carrying
the remaining wait time in seconds (`ceil((60000 - (t1 - t0)) / 1000)`),
leaves the rate-limit state unchanged, performs no storage writes, and
triggers no model calls — for every downstream continuation. -/
theorem C9_rate_limit_gate (down : UpdateMemoryBody → DownstreamOutcome)
    (agentId : String) (b1 b2 : UpdateMemoryBody) (st0 : String → Option Nat)
    (t0 t1 : Nat) (hopen : gateOpen st0 agentId t0 = true) (ht0 : t0 ≠ 0)
    (hwin : t1 - t0 < MIN_UPDATE_INTERVAL_MS) :
    updateMemoryPOST down agentId (some b2) t1
        (updateMemoryPOST down agentId (some b1) t0 st0).lastUpdateTime =
      ⟨.skipped ((MIN_UPDATE_INTERVAL_MS - (t1 - t0) + 999) / 1000),
       (updateMemoryPOST down agentId (some b1) t0 st0).lastUpdateTime,
       0, 0⟩ := by
  have h1 : (updateMemoryPOST down agentId (some b1) t0 st0).lastUpdateTime =
      setTime st0 agentId t0 := by
    rw [post_gate_open down agentId b1 t0 st0 hopen, afterGate_state]
  have hlook : (updateMemoryPOST down agentId (some b1) t0 st0).lastUpdateTime
      agentId = some t0 := by
    rw [h1]
    unfold setTime
    rw [if_pos rfl]
  exact post_gate_closed down agentId b2 t1 _ t0 hlook ht0 hwin

/-- C9 witness: with an empty rate-limit table, a call at 1000 ms followed
by one at 30000 ms for agent "a" yields a skip with a 31-second wait and
zero writes and model calls, although the downstream continuation would
perform five writes and seven model calls. -/
theorem C9_witness :
    updateMemoryPOST downBusy "a" (some bodyGood) 30000
        (updateMemoryPOST downBusy "a" (some bodyGood) 1000
          (fun _ => none)).lastUpdateTime =
      ⟨.skipped 31,
       (updateMemoryPOST downBusy "a" (some bodyGood) 1000
         (fun _ => none)).lastUpdateTime, 0, 0⟩ :=
  C9_rate_limit_gate downBusy "a" bodyGood bodyGood (fun _ => none)
    1000 30000 rfl (by decide) (by decide)

/-- C10: the route records the per-agent timestamp before validating the
body, so a call whose body fails validation (falsy `contextId` or absent
`conversationHistory`) is answered 400 yet still starts the 60-second
window: it writes nothing to storage, its timestamp is recorded, and a
subsequent well-formed call for the same agent within 60000 ms is skipped
with the remaining wait time, no storage writes and no model calls. -/
theorem C10_timestamp_before_validation
    (down : UpdateMemoryBody → DownstreamOutcome) (agentId : String)
    (b bw : UpdateMemoryBody) (st0 : String → Option Nat) (now t2 : Nat)
    (hbad : (jsFalsyOptStr b.contextId || b.conversationHistory.isNone) = true)
    (hgood : (jsFalsyOptStr bw.contextId || bw.conversationHistory.isNone)
      = false)
    (hopen : gateOpen st0 agentId now = true) (hnz : now ≠ 0)
    (hwin : t2 - now < MIN_UPDATE_INTERVAL_MS) :
    (updateMemoryPOST down agentId (some b) now st0).response =
      .badRequest "Missing contextId or conversationHistory" ∧
    (updateMemoryPOST down agentId (some b) now st0).storageWrites = 0 ∧
    (updateMemoryPOST down agentId (some b) now st0).lastUpdateTime agentId =
      some now ∧
    updateMemoryPOST down agentId (some bw) t2
        (updateMemoryPOST down agentId (some b) now st0).lastUpdateTime =
      ⟨.skipped ((MIN_UPDATE_INTERVAL_MS - (t2 - now) + 999) / 1000),
       (updateMemoryPOST down agentId (some b) now st0).lastUpdateTime,
       0, 0⟩ := by
  have hpost : updateMemoryPOST down agentId (some b) now st0 =
      afterGatePOST down agentId b now st0 :=
    post_gate_open down agentId b now st0 hopen
  have hform : afterGatePOST down agentId b now st0 =
      ⟨.badRequest "Missing contextId or conversationHistory",
       setTime st0 agentId now, 0, 0⟩ := by
    unfold afterGatePOST
    simp only [hbad, if_true]
  have hlook : (updateMemoryPOST down agentId (some b) now st0).lastUpdateTime
      agentId = some now := by
    rw [hpost, hform]
    simp [setTime]
  refine ⟨by rw [hpost, hform], by rw [hpost, hform], hlook, ?_⟩
  exact post_gate_closed down agentId bw t2 _ now hlook hnz hwin

/-- C10 witness: an empty table, a `contextId`-less call at 500 ms and a
well-formed call at 700 ms for agent "a". -/
theorem C10_witness :
    (updateMemoryPOST downBusy "a" (some bodyNoCtx) 500
      (fun _ => none)).response =
      .badRequest "Missing contextId or conversationHistory" ∧
    (updateMemoryPOST downBusy "a" (some bodyNoCtx) 500
      (fun _ => none)).storageWrites = 0 ∧
    (updateMemoryPOST downBusy "a" (some bodyNoCtx) 500
      (fun _ => none)).lastUpdateTime "a" = some 500 ∧
    updateMemoryPOST downBusy "a" (some bodyGood) 700
        (updateMemoryPOST downBusy "a" (some bodyNoCtx) 500
          (fun _ => none)).lastUpdateTime =
      ⟨.skipped 60,
       (updateMemoryPOST downBusy "a" (some bodyNoCtx) 500
         (fun _ => none)).lastUpdateTime, 0, 0⟩ :=
  C10_timestamp_before_validation downBusy "a" bodyNoCtx bodyGood
    (fun _ => none) 500 700 (by decide) (by decide) rfl (by decide) (by decide)
